import Mathlib

/-!
Verification development for the Planner–Executor–Synthesizer orchestration
graph of the virtual-pamudu chatbot (src/src/chat/...).

The embedding follows the Python source:
  * src/src/chat/schemas.py      — data model (SearchParams, EmailParams,
                                   ToolCall, AgentPlan, Citation, AgentResponse, AgentState)
  * src/src/chat/nodes/planner.py    — planner_node
  * src/src/chat/nodes/executor.py   — executor_node (per-call dispatch)
  * src/src/chat/nodes/synthesizer.py — synthesizer_node
  * src/src/chat/graph.py        — should_search and the compiled graph
  * src/src/chat/session.py      — ChatSession.chat and ChatSession.chat_stream

External collaborators (the LLM and the data-source adapters) are modelled as
oracle parameters: an adapter call either returns a typed record (per the
interface contract of spec section 6) or raises, which the executor catches.
-/

namespace VirtualPamudu

/-- Role of a conversation turn (the "role" key of a history dict). -/
inductive Role
  | user
  | assistant
deriving DecidableEq

/-- One conversation-history entry: a dict with "role" and "content" keys. -/
structure Turn where
  role : Role
  content : String
deriving DecidableEq

/-- schemas.SearchParams: parameters for the retrieval tools.  Pydantic fills
every field with its default when the model omits it, so a dumped dict always
has every key. -/
structure SearchParams where
  shortcuts : List String := []
  keywords : List String := []
  limit : Nat := 5
  repo_name : String := ""
  file_path : String := ""
  article_link : String := ""
  video_id : String := ""
deriving DecidableEq

/-- schemas.EmailParams: parameters for the email tool. -/
structure EmailParams where
  email_to : String
  email_subject : String
  email_content : String
  email_cc : String := ""
deriving DecidableEq

/-- The params field of a ToolCall is Union[SearchParams, EmailParams]; after
model_dump it is a plain dict of one of the two shapes. -/
inductive Params
  | search (p : SearchParams)
  | email (p : EmailParams)
deriving DecidableEq

/-- schemas.ToolCall. -/
structure ToolCall where
  tool : String
  action : String
  params : Params
deriving DecidableEq

/-- schemas.AgentPlan: the structured output of the planner LLM call. -/
structure AgentPlan where
  need_external_info : Bool
  tool_calls : List ToolCall := []
  response : Option String := none
deriving DecidableEq

/-- schemas.Citation. -/
structure Citation where
  source_type : String
  source_name : String
  url : String := ""
deriving DecidableEq

/-- schemas.AgentResponse (lines 101-109): the structured output of the
synthesizer LLM call.  The class declares exactly two fields, answer and
citations; it has no suggested_questions field. -/
structure AgentResponse where
  answer : String
  citations : List Citation := []
deriving DecidableEq

/-- Python attribute access response.suggested_questions, as performed by
synthesizer.py line 155.  AgentResponse declares only answer and citations, so
pydantic raises AttributeError; modelled as Except.error. -/
def AgentResponse.getSuggestedQuestions (_ : AgentResponse) : Except String (List String) :=
  Except.error "AttributeError: AgentResponse object has no attribute suggested_questions"

/-- schemas.AgentState, the shared graph state.  The TypedDict lists query,
conversation_history, plan, results (an operator.add channel), final_answer and
citations; suggested_questions is additionally threaded through the session
inputs and node updates, so it is carried here as well.  The session omits the
plan and final_answer keys from the initial inputs; every read of a missing key
uses a falsy default, so they are modelled as [] and "". -/
structure AgentState where
  query : String
  conversation_history : List Turn
  plan : List ToolCall
  results : List String
  final_answer : String
  citations : List Citation
  suggested_questions : List String
deriving DecidableEq

/-- A node returns a dict of the channels it updates; absent keys leave the
channel untouched. -/
structure NodeUpdate where
  plan? : Option (List ToolCall) := none
  results? : Option (List String) := none
  final_answer? : Option String := none
  citations? : Option (List Citation) := none
  suggested_questions? : Option (List String) := none
deriving DecidableEq

/-- Merge a node update into the state.  The results channel is declared
Annotated[list, operator.add] in schemas.py, so a write appends; every other
channel overwrites. -/
def applyUpdate (s : AgentState) (u : NodeUpdate) : AgentState :=
  { s with
    plan := u.plan?.getD s.plan
    results := s.results ++ u.results?.getD []
    final_answer := u.final_answer?.getD s.final_answer
    citations := u.citations?.getD s.citations
    suggested_questions := u.suggested_questions?.getD s.suggested_questions }

/-! Adapter interface (spec section 6).  An adapter call either returns its
record normally or raises an exception, which executor_node catches. -/

/-- Outcome of one adapter call as observed inside the try block of
executor_node: a normal return value or a raised exception message. -/
inductive Outcome (α : Type)
  | ok (v : α)
  | exn (msg : String)

/-- Result shape of the list/search adapters: the Python value is a list of
dicts where a failure is signalled by an error key in the first element
(the adapters return a one-element error list on failure, so the list is
either homogeneous records or an error marker). -/
inductive ListResult (β : Type)
  | items (xs : List β)
  | errored

/-- Record of fetch_brain_context: source_path and content keys. -/
structure BrainItem where
  source_path : String
  content : String

/-- Record of list_medium_articles: title, date, link keys. -/
structure MediumListed where
  title : String
  date : String
  link : String

/-- Record of search_medium_articles: title, matches, link keys. -/
structure MediumFound where
  title : String
  matchCount : Nat
  link : String

/-- Success record of get_medium_article_content: title and content keys. -/
structure MediumContent where
  title : String
  content : String

/-- Record of list_youtube_videos: title and link keys. -/
structure YoutubeListed where
  title : String
  link : String

/-- Record of search_video_transcripts: title, matches, link keys. -/
structure YoutubeFound where
  title : String
  matchCount : Nat
  link : String

/-- Record of list_my_repos: name, language, stars, description keys; the
description may be null (rendered through the or-fallback). -/
structure RepoListed where
  name : String
  language : String
  stars : Nat
  description : Option String

/-- Record of search_repos: name, matches, url keys. -/
structure RepoFound where
  name : String
  matchCount : Nat
  url : String

/-- Success record of get_repo_readme / get_file_content: branch and content. -/
structure RepoText where
  branch : String
  content : String

/-- Success record of search_and_read_repo: a repo record plus an optional
readme (rendered through the or-fallback). -/
structure SearchReadRec where
  name : String
  description : String
  url : String
  readme : Option String

/-- Return dict of tools.mail_tool.send_email: that function catches every
exception internally and returns either a success dict with a message_id or an
error dict, so it never raises into the executor. -/
inductive EmailResult
  | success (message_id : String)
  | failure (error : String)

/-- The adapter environment: one oracle per imported tool function of
executor.py.  All are external collaborators. -/
structure Env where
  fetch_brain_context : List String → List String → Outcome (List BrainItem)
  list_medium_articles : Nat → Outcome (ListResult MediumListed)
  search_medium_articles : List String → Outcome (ListResult MediumFound)
  get_medium_article_content : String → Outcome (Except String MediumContent)
  list_youtube_videos : Nat → Outcome (ListResult YoutubeListed)
  search_video_transcripts : List String → Outcome (ListResult YoutubeFound)
  get_video_transcript : String → Outcome (Except String String)
  list_my_repos : Nat → Outcome (ListResult RepoListed)
  search_repos : List String → Outcome (ListResult RepoFound)
  get_repo_readme : String → Outcome (Except String RepoText)
  get_file_content : String → String → Outcome (Except String RepoText)
  search_and_read_repo : List String → Outcome (Except String SearchReadRec)
  send_email : String → String → String → Option String → EmailResult

/-! Dict-style reads of the params dict (tc.get("params", {})).  The dict is
the model_dump of either SearchParams or EmailParams, so a key belonging to
the other shape is absent and params.get returns the call-site default. -/

/-- params.get("shortcuts", []). -/
def Params.getShortcuts : Params → List String
  | Params.search p => p.shortcuts
  | Params.email _ => []

/-- params.get("keywords", []). -/
def Params.getKeywords : Params → List String
  | Params.search p => p.keywords
  | Params.email _ => []

/-- params.get("limit", d): executor.py passes d = 5 for medium/youtube and
d = 10 for github. -/
def Params.getLimit (d : Nat) : Params → Nat
  | Params.search p => p.limit
  | Params.email _ => d

/-- params.get("repo_name", ""). -/
def Params.getRepoName : Params → String
  | Params.search p => p.repo_name
  | Params.email _ => ""

/-- params.get("file_path", ""). -/
def Params.getFilePath : Params → String
  | Params.search p => p.file_path
  | Params.email _ => ""

/-- params.get("article_link", ""). -/
def Params.getArticleLink : Params → String
  | Params.search p => p.article_link
  | Params.email _ => ""

/-- params.get("video_id", ""). -/
def Params.getVideoId : Params → String
  | Params.search p => p.video_id
  | Params.email _ => ""

/-- params.get("email_to", ""). -/
def Params.getEmailTo : Params → String
  | Params.search _ => ""
  | Params.email p => p.email_to

/-- params.get("email_subject", "Message from Virtual Pamudu"). -/
def Params.getEmailSubject : Params → String
  | Params.search _ => "Message from Virtual Pamudu"
  | Params.email p => p.email_subject

/-- params.get("email_content", ""). -/
def Params.getEmailContent : Params → String
  | Params.search _ => ""
  | Params.email p => p.email_content

/-- params.get("email_cc", ""). -/
def Params.getEmailCc : Params → String
  | Params.search _ => ""
  | Params.email p => p.email_cc

/-- Python x or None on a string: empty becomes None. -/
def orNone (s : String) : Option String := if s = "" then none else some s

/-- Abstraction of the Python textual rendering of a list of keywords inside a
no-result block; the exact text has no bearing on any claim. -/
def listRepr (xs : List String) : String := "[" ++ String.intercalate ", " xs ++ "]"

/-- Abstraction of the Python textual rendering of the params dict inside the
brain no-result block; the exact text has no bearing on any claim. -/
def paramsRepr : Params → String
  | Params.search p =>
      "shortcuts=" ++ listRepr p.shortcuts ++ " keywords=" ++ listRepr p.keywords
  | Params.email p => "to=" ++ p.email_to

/-- Python substring test: "[Will be filled" in content. -/
def hasUnfilledMarker (content : String) : Bool :=
  (content.splitOn "[Will be filled").length > 1

/-- The inline block appended by the except-branch of executor_node:
"--- ERROR: tool.action failed: msg ---". -/
def exnBlock (tool action msg : String) : String :=
  "--- ERROR: " ++ tool ++ "." ++ action ++ " failed: " ++ msg ++ " ---\n"

/-- An email dispatch performed by the executor: the arguments passed to
send_email (to_email, subject, content, cc_email).  Recorded so that the
absence of a dispatch is observable. -/
structure SentEmail where
  to_email : String
  subject : String
  content : String
  cc_email : Option String
deriving DecidableEq

/-- Body of one iteration of the executor loop (executor.py lines 34-195):
given the results accumulated so far (read by the email branch), dispatch one
tool call and return the blocks it appends together with the emails it
dispatches.  Exceptions raised by an adapter are caught and turned into an
inline ERROR block. -/
def runToolCall (env : Env) (results : List String) (tc : ToolCall) :
    List String × List SentEmail :=
  let tool := tc.tool
  let action := tc.action
  let params := tc.params
  if tool = "brain" then
    match env.fetch_brain_context params.getShortcuts params.getKeywords with
    | Outcome.exn e => ([exnBlock tool action e], [])
    | Outcome.ok data =>
      if !data.isEmpty then
        (data.map (fun item =>
          "--- BRAIN: " ++ item.source_path ++ " ---\n" ++ item.content ++ "\n"), [])
      else
        (["--- BRAIN: No results for " ++ paramsRepr params ++ " ---\n"], [])
  else if tool = "medium" then
    if action = "list" then
      match env.list_medium_articles (params.getLimit 5) with
      | Outcome.exn e => ([exnBlock tool action e], [])
      | Outcome.ok (ListResult.items xs) =>
        if !xs.isEmpty then
          (["--- MEDIUM: Latest Articles ---\n" ++
            String.intercalate "\n" (xs.map (fun a =>
              "• " ++ a.title ++ " (" ++ a.date ++ ")\n  " ++ a.link)) ++ "\n"], [])
        else (["--- MEDIUM: Failed to list articles ---\n"], [])
      | Outcome.ok ListResult.errored =>
        (["--- MEDIUM: Failed to list articles ---\n"], [])
    else if action = "search" then
      match env.search_medium_articles params.getKeywords with
      | Outcome.exn e => ([exnBlock tool action e], [])
      | Outcome.ok (ListResult.items xs) =>
        if !xs.isEmpty then
          (["--- MEDIUM: Search Results ---\n" ++
            String.intercalate "\n" (xs.map (fun a =>
              "• " ++ a.title ++ " (matches: " ++ toString a.matchCount ++ ")\n  " ++ a.link)) ++ "\n"], [])
        else (["--- MEDIUM: No articles matching " ++ listRepr params.getKeywords ++ " ---\n"], [])
      | Outcome.ok ListResult.errored =>
        (["--- MEDIUM: No articles matching " ++ listRepr params.getKeywords ++ " ---\n"], [])
    else if action = "get_content" then
      match env.get_medium_article_content params.getArticleLink with
      | Outcome.exn e => ([exnBlock tool action e], [])
      | Outcome.ok (Except.ok d) =>
        (["--- MEDIUM: " ++ d.title ++ " ---\n" ++ d.content ++ "\n"], [])
      | Outcome.ok (Except.error err) =>
        (["--- MEDIUM: " ++ err ++ " ---\n"], [])
    else ([], [])
  else if tool = "youtube" then
    if action = "list" then
      match env.list_youtube_videos (params.getLimit 5) with
      | Outcome.exn e => ([exnBlock tool action e], [])
      | Outcome.ok (ListResult.items xs) =>
        if !xs.isEmpty then
          (["--- YOUTUBE: Latest Videos ---\n" ++
            String.intercalate "\n" (xs.map (fun v =>
              "• " ++ v.title ++ "\n  " ++ v.link)) ++ "\n"], [])
        else (["--- YOUTUBE: Failed to list videos ---\n"], [])
      | Outcome.ok ListResult.errored =>
        (["--- YOUTUBE: Failed to list videos ---\n"], [])
    else if action = "search" then
      match env.search_video_transcripts params.getKeywords with
      | Outcome.exn e => ([exnBlock tool action e], [])
      | Outcome.ok (ListResult.items xs) =>
        if !xs.isEmpty then
          (["--- YOUTUBE: Search Results ---\n" ++
            String.intercalate "\n" (xs.map (fun v =>
              "• " ++ v.title ++ " (matches: " ++ toString v.matchCount ++ ")\n  " ++ v.link)) ++ "\n"], [])
        else (["--- YOUTUBE: No videos matching " ++ listRepr params.getKeywords ++ " ---\n"], [])
      | Outcome.ok ListResult.errored =>
        (["--- YOUTUBE: No videos matching " ++ listRepr params.getKeywords ++ " ---\n"], [])
    else if action = "get_transcript" then
      match env.get_video_transcript params.getVideoId with
      | Outcome.exn e => ([exnBlock tool action e], [])
      | Outcome.ok (Except.ok transcript) =>
        (["--- YOUTUBE TRANSCRIPT: " ++ params.getVideoId ++ " ---\n" ++ transcript ++ "\n"], [])
      | Outcome.ok (Except.error err) =>
        (["--- YOUTUBE: " ++ err ++ " ---\n"], [])
    else ([], [])
  else if tool = "github" then
    if action = "list" then
      match env.list_my_repos (params.getLimit 10) with
      | Outcome.exn e => ([exnBlock tool action e], [])
      | Outcome.ok (ListResult.items xs) =>
        if !xs.isEmpty then
          (["--- GITHUB: Repositories ---\n" ++
            String.intercalate "\n" (xs.map (fun r =>
              "• " ++ r.name ++ " (" ++ r.language ++ ") ⭐" ++ toString r.stars ++ "\n  " ++
              r.description.getD "No description")) ++ "\n"], [])
        else (["--- GITHUB: Failed to list repos ---\n"], [])
      | Outcome.ok ListResult.errored =>
        (["--- GITHUB: Failed to list repos ---\n"], [])
    else if action = "search" then
      match env.search_repos params.getKeywords with
      | Outcome.exn e => ([exnBlock tool action e], [])
      | Outcome.ok (ListResult.items xs) =>
        if !xs.isEmpty then
          (["--- GITHUB: Search Results ---\n" ++
            String.intercalate "\n" (xs.map (fun r =>
              "• " ++ r.name ++ " (matches: " ++ toString r.matchCount ++ ")\n  " ++ r.url)) ++ "\n"], [])
        else (["--- GITHUB: No repos matching " ++ listRepr params.getKeywords ++ " ---\n"], [])
      | Outcome.ok ListResult.errored =>
        (["--- GITHUB: No repos matching " ++ listRepr params.getKeywords ++ " ---\n"], [])
    else if action = "get_readme" then
      match env.get_repo_readme params.getRepoName with
      | Outcome.exn e => ([exnBlock tool action e], [])
      | Outcome.ok (Except.ok d) =>
        (["--- GITHUB README: " ++ params.getRepoName ++ " (branch: " ++ d.branch ++ ") ---\n" ++
          d.content ++ "\n"], [])
      | Outcome.ok (Except.error err) =>
        (["--- GITHUB: " ++ err ++ " ---\n"], [])
    else if action = "get_file" then
      match env.get_file_content params.getRepoName params.getFilePath with
      | Outcome.exn e => ([exnBlock tool action e], [])
      | Outcome.ok (Except.ok d) =>
        (["--- GITHUB FILE: " ++ params.getRepoName ++ "/" ++ params.getFilePath ++
          " (branch: " ++ d.branch ++ ") ---\n" ++ d.content ++ "\n"], [])
      | Outcome.ok (Except.error err) =>
        (["--- GITHUB: " ++ err ++ " ---\n"], [])
    else if action = "search_and_read" then
      match env.search_and_read_repo params.getKeywords with
      | Outcome.exn e => ([exnBlock tool action e], [])
      | Outcome.ok (Except.ok d) =>
        (["--- GITHUB: Search & Read ---\n" ++
          "Found: " ++ d.name ++ "\nDescription: " ++ d.description ++ "\nURL: " ++ d.url ++
          "\n\nREADME:\n" ++ d.readme.getD "No README" ++ "\n"], [])
      | Outcome.ok (Except.error err) =>
        (["--- GITHUB: " ++ err ++ " ---\n"], [])
    else ([], [])
  else if tool = "email" then
    if action = "send" then
      let email_to := params.getEmailTo
      let subject := params.getEmailSubject
      let content0 := params.getEmailContent
      let cc_email := orNone params.getEmailCc
      let content :=
        if content0 = "" ∨ hasUnfilledMarker content0 then
          if !results.isEmpty then String.intercalate "\n" results else "No content available."
        else content0
      if email_to = "" then
        (["--- EMAIL: Failed to send ---\nError: No \x27to_email\x27 specified.\n"], [])
      else
        match env.send_email email_to subject content cc_email with
        | EmailResult.success mid =>
          (["--- EMAIL: Sent successfully ---\nTo: " ++ email_to ++ "\nSubject: " ++ subject ++
            "\nMessage ID: " ++ mid ++ "\n"],
           [⟨email_to, subject, content, cc_email⟩])
        | EmailResult.failure err =>
          (["--- EMAIL: Failed to send ---\nError: " ++ err ++ "\n"],
           [⟨email_to, subject, content, cc_email⟩])
    else ([], [])
  else
    (["--- ERROR: Unknown tool \x27" ++ tool ++ "\x27 ---\n"], [])

/-- The executor loop: results starts empty and each call appends its blocks;
the email branch of a later call reads the blocks accumulated so far. -/
def executorLoop (env : Env) (acc : List String) (sent : List SentEmail) :
    List ToolCall → List String × List SentEmail
  | [] => (acc, sent)
  | tc :: rest =>
    let r := runToolCall env acc tc
    executorLoop env (acc ++ r.1) (sent ++ r.2) rest

/-- executor_node (executor.py): runs every tool call of the plan in order and
returns the accumulated result blocks (plus the dispatched emails, the only
external side effect). -/
def executor_node (env : Env) (plan : List ToolCall) : List String × List SentEmail :=
  executorLoop env [] [] plan

/-- The blocks appended by each individual tool call, in plan order, starting
from the accumulated blocks acc. -/
def blocksPerCall (env : Env) (acc : List String) : List ToolCall → List (List String)
  | [] => []
  | tc :: rest =>
    let r := runToolCall env acc tc
    r.1 :: blocksPerCall env (acc ++ r.1) rest

/-- Number of tool calls of the batch that produced at least one block. -/
def callsWithOutput (env : Env) (plan : List ToolCall) : Nat :=
  ((blocksPerCall env [] plan).filter (fun bs => !bs.isEmpty)).length

/-! The planner node (planner.py lines 149-186).  The structured-output LLM
call is an oracle; planner_node is the pure post-processing of its AgentPlan:
plan.tool_calls is stored only when need_external_info is true, and
final_answer is plan.response when that is truthy, else the empty string. -/

/-- planner_node: the update dict returned for the shared state. -/
def planner_node (plan : AgentPlan) : NodeUpdate :=
  { plan? := some (if plan.need_external_info then plan.tool_calls else [])
    final_answer? := some (plan.response.getD "") }

/-! The synthesizer node (synthesizer.py lines 90-156).  The two LLM calls are
oracles: fastAnswer is the content of the plain generation call used on the
fast path, resp is the AgentResponse of the structured call.  The source tests
state.get("final_answer") for truthiness first (planner bypass), then
branches on has_new_results = bool(results); the structured path finally reads
resp.suggested_questions, an attribute AgentResponse does not declare. -/

/-- synthesizer_node: Except.error models an exception escaping the node. -/
def synthesizer_node (fastAnswer : String) (resp : AgentResponse) (s : AgentState) :
    Except String NodeUpdate :=
  if s.final_answer = "" then
    if s.results.isEmpty then
      Except.ok { final_answer? := some fastAnswer
                  citations? := some []
                  suggested_questions? := some [] }
    else
      match resp.getSuggestedQuestions with
      | Except.error e => Except.error e
      | Except.ok sq =>
        Except.ok { final_answer? := some resp.answer
                    citations? := some resp.citations
                    suggested_questions? := some sq }
  else
    Except.ok {}

/-! The orchestration graph (graph.py).  Nodes planner, executor, synthesizer;
entry point planner; conditional edge on should_search with mapping
search to executor and skip to synthesizer; executor to synthesizer;
synthesizer to END. -/

/-- The nodes of the graph, plus the END sentinel. -/
inductive Node
  | planner
  | executor
  | synthesizer
  | terminal
deriving DecidableEq

/-- should_search (graph.py lines 16-24): "skip" when the plan is falsy
(empty), otherwise "search". -/
def should_search (s : AgentState) : String :=
  if s.plan = [] then "skip" else "search"

/-- The edge relation of the compiled graph: after the planner the conditional
edge maps the label "search" to the executor and "skip" (the only other label
should_search returns) to the synthesizer; executor to synthesizer;
synthesizer to END. -/
def routeAfter : Node → AgentState → Node
  | Node.planner, s => if should_search s = "search" then Node.executor else Node.synthesizer
  | Node.executor, _ => Node.synthesizer
  | Node.synthesizer, _ => Node.terminal
  | Node.terminal, _ => Node.terminal

/-- Position of a node along the single pass of the graph. -/
def nodeIdx : Node → Nat
  | Node.planner => 0
  | Node.executor => 1
  | Node.synthesizer => 2
  | Node.terminal => 3

/-- Display name of a node, as used for the keys of app.stream output. -/
def nodeName : Node → String
  | Node.planner => "planner"
  | Node.executor => "executor"
  | Node.synthesizer => "synthesizer"
  | Node.terminal => "terminal"

/-- The per-invocation oracles: the planner LLM structured output, the adapter
environment, and the two synthesizer LLM outputs. -/
structure Oracles where
  plannerPlan : AgentPlan
  env : Env
  fastAnswer : String
  structuredResp : AgentResponse

/-- One node execution: the update it returns, or the exception it raises.
The executor reads state["plan"] and returns a dict with the results key only;
the planner returns plan and final_answer. -/
def stepNode (o : Oracles) : Node → AgentState → Except String NodeUpdate
  | Node.planner, _ => Except.ok (planner_node o.plannerPlan)
  | Node.executor, s => Except.ok { results? := some (executor_node o.env s.plan).1 }
  | Node.synthesizer, s => synthesizer_node o.fastAnswer o.structuredResp s
  | Node.terminal, _ => Except.ok {}

/-- Result of driving the graph: the per-node updates in execution order (as
surfaced by app.stream), the final state, the node at which execution stopped
(END on normal completion), and the exception if one escaped. -/
structure RunOutcome where
  trace : List (String × NodeUpdate)
  final : AgentState
  stopped : Node
  err : Option String

/-- Execution from the synthesizer; its outgoing edge goes to END. -/
def runAtSynthesizer (o : Oracles) (s : AgentState) : RunOutcome :=
  match stepNode o Node.synthesizer s with
  | Except.error e => ⟨[], s, Node.synthesizer, some e⟩
  | Except.ok u =>
    let s1 := applyUpdate s u
    ⟨[("synthesizer", u)], s1, routeAfter Node.synthesizer s1, none⟩

/-- Execution from the executor; its outgoing edge goes to the synthesizer. -/
def runAtExecutor (o : Oracles) (s : AgentState) : RunOutcome :=
  match stepNode o Node.executor s with
  | Except.error e => ⟨[], s, Node.executor, some e⟩
  | Except.ok u =>
    let s1 := applyUpdate s u
    let rest := runAtSynthesizer o s1
    ⟨("executor", u) :: rest.trace, rest.final, rest.stopped, rest.err⟩

/-- Execution from the entry point: the planner runs, then the conditional
edge (routeAfter, i.e. should_search) picks the executor or the synthesizer. -/
def runAtPlanner (o : Oracles) (s : AgentState) : RunOutcome :=
  match stepNode o Node.planner s with
  | Except.error e => ⟨[], s, Node.planner, some e⟩
  | Except.ok u =>
    let s1 := applyUpdate s u
    let rest :=
      if routeAfter Node.planner s1 = Node.executor then runAtExecutor o s1
      else runAtSynthesizer o s1
    ⟨("planner", u) :: rest.trace, rest.final, rest.stopped, rest.err⟩

/-- app.invoke: drive the whole graph, returning the final state or the
escaping exception. -/
def app_invoke (o : Oracles) (init : AgentState) : Except String AgentState :=
  let r := runAtPlanner o init
  match r.err with
  | some e => Except.error e
  | none => Except.ok r.final

/-! The chat session (session.py).  ChatSession holds conversation_history;
chat runs the graph once and appends the user/assistant pair; chat_stream
yields status events per node and a terminal result event, committing history
only after the graph stream is exhausted. -/

/-- The initial inputs dict built by both chat and chat_stream: query, a copy
of the history, and empty results, citations and suggested_questions.  The
plan and final_answer keys are absent; reads of absent keys use falsy
defaults, modelled as [] and "". -/
def initialInputs (user_message : String) (history : List Turn) : AgentState :=
  { query := user_message
    conversation_history := history
    plan := []
    results := []
    final_answer := ""
    citations := []
    suggested_questions := [] }

/-- The dict returned by ChatSession.chat. -/
structure ChatResult where
  answer : String
  citations : List Citation
  suggested_questions : List String
  history_length : Nat
deriving DecidableEq

/-- ChatSession.chat (session.py lines 21-59): invoke the graph, append the
user and assistant turns to the history, and return answer, citations,
suggested_questions and the turn count (half the new history length).  A graph
exception propagates to the caller and nothing is committed. -/
def chat (o : Oracles) (history : List Turn) (user_message : String) :
    Except String (ChatResult × List Turn) :=
  match app_invoke o (initialInputs user_message history) with
  | Except.error e => Except.error e
  | Except.ok result =>
    let answer := result.final_answer
    let newHistory :=
      history ++ [⟨Role.user, user_message⟩, ⟨Role.assistant, answer⟩]
    Except.ok ({ answer := answer
                 citations := result.citations
                 suggested_questions := result.suggested_questions
                 history_length := newHistory.length / 2 }, newHistory)

/-- An event yielded by chat_stream: a status dict or the terminal result
dict. -/
inductive Event
  | status (node : String) (message : String)
  | result (r : ChatResult)
deriving DecidableEq

/-- One step of the chat_stream generator body: a yield of an event, or the
history commit (the two appends after the stream loop, which execute without
yielding). -/
inductive GenStep
  | yieldEv (e : Event)
  | commitHistory (user_msg : String) (assistant_msg : String)
deriving DecidableEq

/-- Map a planned tool name to its display name; unknown tools contribute
nothing (session.py lines 100-107). -/
def toolDisplayName (t : String) : Option String :=
  if t = "github" then some "GitHub"
  else if t = "medium" then some "Medium"
  else if t = "youtube" then some "YouTube"
  else if t = "brain" then some "Brain"
  else if t = "email" then some "Email"
  else none

/-- The planner status message for a non-empty plan.  Python builds
list(set(details)); set iteration order is abstracted here as duplicate
removal keeping first occurrences, which no claim depends on. -/
def usingToolsMessage (plan : List ToolCall) : String :=
  let details := plan.filterMap (fun t => toolDisplayName t.tool)
  "🔎 Using tools: " ++ String.intercalate ", " details.eraseDups ++ "..."

/-- The body of the stream loop of chat_stream (session.py lines 83-137): fold
over the node updates yielded by app.stream, tracking the captured
final_answer, and emit the status events and the terminal result event. -/
def streamLoop (histLen : Nat) : List (String × NodeUpdate) → String → List GenStep × String
  | [], fa => ([], fa)
  | (name, u) :: rest, fa =>
    if name = "planner" then
      let plan := u.plan?.getD []
      let planner_answer := u.final_answer?.getD ""
      let fa1 := if planner_answer ≠ "" then planner_answer else fa
      let ev :=
        if plan ≠ [] then Event.status "planner" (usingToolsMessage plan)
        else Event.status "planner" "📝 Thinking..."
      let r := streamLoop histLen rest fa1
      (GenStep.yieldEv ev :: r.1, r.2)
    else if name = "executor" then
      let results := u.results?.getD []
      let e1 := Event.status "executor"
        ("📊 Analyzed " ++ toString results.length ++ " search results.")
      let e2 := Event.status "synthesizer" "✍️ Drafting response..."
      let r := streamLoop histLen rest fa
      (GenStep.yieldEv e1 :: GenStep.yieldEv e2 :: r.1, r.2)
    else if name = "synthesizer" then
      let synth_answer := u.final_answer?.getD ""
      let fa1 := if synth_answer ≠ "" then synth_answer else fa
      let ev := Event.result
        { answer := fa1
          citations := u.citations?.getD []
          suggested_questions := u.suggested_questions?.getD []
          history_length := histLen / 2 + 1 }
      let r := streamLoop histLen rest fa1
      (GenStep.yieldEv ev :: r.1, r.2)
    else
      streamLoop histLen rest fa

/-- ChatSession.chat_stream (session.py lines 61-143) as a generator script:
the ordered steps the generator performs (yields, then on normal completion
the history commit), plus the exception that escapes mid-iteration if the
graph raises (in which case no commit step exists). -/
def chat_stream (o : Oracles) (history : List Turn) (user_message : String) :
    List GenStep × Option String :=
  let r := runAtPlanner o (initialInputs user_message history)
  let lp := streamLoop history.length r.trace ""
  let steps := GenStep.yieldEv (Event.status "start" "🧠 Analyzing request...") :: lp.1
  match r.err with
  | some e => (steps, some e)
  | none => (steps ++ [GenStep.commitHistory user_message lp.2], none)

/-- Steps of the generator that have executed after the consumer has made n
next-requests: each request runs the body up to and including the next yield;
non-yield steps (the history commit) execute only while a request is pending,
so the commit placed after the last yield runs only on a further request. -/
def executedAfter : List GenStep → Nat → List GenStep
  | _, 0 => []
  | [], _ + 1 => []
  | GenStep.yieldEv e :: rest, n + 1 => GenStep.yieldEv e :: executedAfter rest n
  | GenStep.commitHistory um am :: rest, n + 1 =>
    GenStep.commitHistory um am :: executedAfter rest (n + 1)

/-- Effect of executed generator steps on the session history: each commit
appends the user turn and the assistant turn. -/
def applySteps (h : List Turn) : List GenStep → List Turn
  | [] => h
  | GenStep.yieldEv _ :: rest => applySteps h rest
  | GenStep.commitHistory um am :: rest =>
    applySteps (h ++ [⟨Role.user, um⟩, ⟨Role.assistant, am⟩]) rest

/-- The session conversation_history observed after the consumer has made n
next-requests against chat_stream (abandoning the generator at that point
throws GeneratorExit at the suspended yield, so no later step ever runs). -/
def historyAfterRequests (o : Oracles) (history : List Turn) (user_message : String)
    (n : Nat) : List Turn :=
  applySteps history (executedAfter (chat_stream o history user_message).1 n)

/-- Number of yields in a generator script. -/
def numYields : List GenStep → Nat
  | [] => 0
  | GenStep.yieldEv _ :: rest => numYields rest + 1
  | GenStep.commitHistory _ _ :: rest => numYields rest

/-- The payloads of the result events among the yielded steps. -/
def resultEvents : List GenStep → List ChatResult
  | [] => []
  | GenStep.yieldEv (Event.result r) :: rest => r :: resultEvents rest
  | _ :: rest => resultEvents rest

/-- True when every step is a yield (no commit). -/
def allYields : List GenStep → Bool
  | [] => true
  | GenStep.yieldEv _ :: rest => allYields rest
  | GenStep.commitHistory _ _ :: _ => false

/-! Concrete adapter environments and calls, used to evaluate the embedding at
specific inputs. -/

/-- A concrete adapter environment: the brain returns two records, the github
keyword search raises, the email adapter reports success, everything else
returns an empty or error result. -/
def envEx : Env :=
  { fetch_brain_context := fun _ _ =>
      Outcome.ok [⟨"brain/bio.md", "Pamudu bio"⟩, ⟨"brain/skills.md", "Skills list"⟩]
    list_medium_articles := fun _ => Outcome.ok (ListResult.items [])
    search_medium_articles := fun _ => Outcome.ok ListResult.errored
    get_medium_article_content := fun _ => Outcome.ok (Except.error "Article not found")
    list_youtube_videos := fun _ => Outcome.ok (ListResult.items [])
    search_video_transcripts := fun _ => Outcome.ok ListResult.errored
    get_video_transcript := fun _ => Outcome.ok (Except.error "No transcript")
    list_my_repos := fun _ => Outcome.ok (ListResult.items [])
    search_repos := fun _ => Outcome.exn "boom"
    get_repo_readme := fun _ => Outcome.ok (Except.error "Repo not found")
    get_file_content := fun _ _ => Outcome.ok (Except.error "File not found")
    search_and_read_repo := fun _ => Outcome.ok (Except.error "No repos found")
    send_email := fun _ _ _ _ => EmailResult.success "msg-1" }

/-- A tool call on the known tool "medium" with an action outside its
dispatch table. -/
def tcMediumBogus : ToolCall := ⟨"medium", "bogus", Params.search {}⟩

/-- A tool call whose tool name matches no branch of the executor. -/
def tcUnknownTool : ToolCall := ⟨"nosuch", "search", Params.search {}⟩

/-- The dispatch table of the executor: the actions recognised for each tool
with an action-level dispatch (the brain branch ignores the action). -/
def knownActions (tool : String) : List String :=
  if tool = "medium" then ["list", "search", "get_content"]
  else if tool = "youtube" then ["list", "search", "get_transcript"]
  else if tool = "github" then ["list", "search", "get_readme", "get_file", "search_and_read"]
  else if tool = "email" then ["send"]
  else []

/-! Claim theorems. -/

/-- C1: the spec says the structured path of synthesize returns final_answer,
citations and suggested_questions, the last taken from the structured
generation output.  The code agrees in intent (synthesizer.py line 155 reads
response.suggested_questions) but AgentResponse declares no such field, so on
every structured-path state (planner did not set final_answer, results
non-empty) the node raises AttributeError instead of returning. -/
theorem C1_structured_path_raises (fast : String) (resp : AgentResponse) (s : AgentState)
    (hfa : s.final_answer = "") (hres : s.results ≠ []) :
    synthesizer_node fast resp s =
      Except.error "AttributeError: AgentResponse object has no attribute suggested_questions" := by
  have h2 : s.results.isEmpty = false := by
    cases h : s.results with
    | nil => exact absurd h hres
    | cons a l => rfl
  simp [synthesizer_node, hfa, h2, AgentResponse.getSuggestedQuestions]

/-- A structured-path state: the planner produced no direct answer and the
executor accumulated one block. -/
def sC1 : AgentState :=
  { initialInputs "What has Pamudu written?" [] with
    results := ["--- BRAIN: brain/bio.md ---\nPamudu bio\n"] }

/-- Witness for C1: the failing input evaluated concretely. -/
theorem C1_structured_path_raises_witness :
    synthesizer_node "fast" ⟨"ans", []⟩ sC1 =
      Except.error "AttributeError: AgentResponse object has no attribute suggested_questions" :=
  C1_structured_path_raises "fast" ⟨"ans", []⟩ sC1 rfl (by decide)

/-- An AgentPlan the structured-output call can return: external info flagged,
a send tool call, and a non-empty response. -/
def planC2 : AgentPlan :=
  { need_external_info := true
    tool_calls := [⟨"email", "send", Params.email ⟨"bob@x.com", "Hi", "Test", ""⟩⟩]
    response := some "Sending it now." }

/-- C2 as stated is false: for the plan planC2 the Planner sets final_answer
(non-empty response) while the stored plan is non-empty and the graph routes
to the Executor, which is neither skipped nor a no-op. -/
theorem C2_counterexample :
    (planner_node planC2).final_answer? = some "Sending it now." ∧
    (applyUpdate (initialInputs "Send it" []) (planner_node planC2)).final_answer ≠ "" ∧
    (applyUpdate (initialInputs "Send it" []) (planner_node planC2)).plan ≠ [] ∧
    routeAfter Node.planner (applyUpdate (initialInputs "Send it" []) (planner_node planC2)) =
      Node.executor := by
  refine ⟨rfl, by decide, by decide, rfl⟩

/-- C2 amended: the Synthesizer is a no-op exactly when the Planner set
final_answer, so at most one of them sets it per turn (and on every completed
turn exactly one does); the plan is empty and the Executor skipped whenever
need_external_info is false; but a plan output with need_external_info true,
non-empty tool_calls and a non-empty response makes the Planner set
final_answer while the plan is stored non-empty and the Executor runs. -/
theorem C2_amended :
    (∀ (fast : String) (resp : AgentResponse) (s : AgentState),
      s.final_answer ≠ "" → synthesizer_node fast resp s = Except.ok {}) ∧
    (∀ (fast : String) (resp : AgentResponse) (s : AgentState) (u : NodeUpdate),
      s.final_answer = "" → synthesizer_node fast resp s = Except.ok u →
      u.final_answer? ≠ none) ∧
    (∀ (p : AgentPlan) (q : String) (h : List Turn), p.need_external_info = false →
      (applyUpdate (initialInputs q h) (planner_node p)).plan = [] ∧
      routeAfter Node.planner (applyUpdate (initialInputs q h) (planner_node p)) =
        Node.synthesizer) := by
  refine ⟨?_, ?_, ?_⟩
  · intro fast resp s hfa
    simp [synthesizer_node, hfa]
  · intro fast resp s u hfa hok
    by_cases hr : s.results.isEmpty
    · simp [synthesizer_node, hfa, hr] at hok
      simp [← hok]
    · simp [synthesizer_node, hfa, hr, AgentResponse.getSuggestedQuestions] at hok
  · intro p q h hp
    constructor
    · simp [applyUpdate, planner_node, hp, initialInputs]
    · simp [routeAfter, should_search, applyUpdate, planner_node, hp, initialInputs]

/-- Witness for C2 amended: the no-op conjunct applied to a state where the
Planner answered directly. -/
theorem C2_amended_witness :
    synthesizer_node "f" ⟨"a", []⟩
      (applyUpdate (initialInputs "Hi" []) (planner_node ⟨false, [], some "Hello."⟩)) =
      Except.ok {} :=
  C2_amended.1 "f" ⟨"a", []⟩
    (applyUpdate (initialInputs "Hi" []) (planner_node ⟨false, [], some "Hello."⟩))
    (by decide)

/-- C3 as stated is false: a call on the known tool "medium" with the
unrecognised action "bogus" appends nothing at all, while an unknown tool name
appends an inline ERROR block. -/
theorem C3_counterexample :
    (executor_node envEx [tcMediumBogus]).1 = [] ∧
    (executor_node envEx [tcUnknownTool]).1 =
      ["--- ERROR: Unknown tool \x27nosuch\x27 ---\n"] := by
  exact ⟨rfl, rfl⟩

/-- C3 amended: only an unrecognised tool name produces the inline error
block; a recognised tool (with action-level dispatch) given an unrecognised
action is silently skipped, appending no block. -/
theorem C3_amended (env : Env) (acc : List String) (tc : ToolCall) :
    (tc.tool ∉ (["brain", "medium", "youtube", "github", "email"] : List String) →
      runToolCall env acc tc =
        (["--- ERROR: Unknown tool \x27" ++ tc.tool ++ "\x27 ---\n"], [])) ∧
    (tc.tool ∈ (["medium", "youtube", "github", "email"] : List String) →
      tc.action ∉ knownActions tc.tool →
      runToolCall env acc tc = ([], [])) := by
  constructor
  · intro h
    simp only [List.mem_cons, List.mem_singleton, not_or] at h
    obtain ⟨h1, h2, h3, h4, ⟨h5, -⟩⟩ := h
    simp [runToolCall, h1, h2, h3, h4, h5]
  · intro h ha
    simp only [List.mem_cons, List.not_mem_nil, or_false] at h
    rcases h with h | h | h | h
    · have h1 : tc.action ≠ "list" := fun he => ha (by rw [h, he]; decide)
      have h2 : tc.action ≠ "search" := fun he => ha (by rw [h, he]; decide)
      have h3 : tc.action ≠ "get_content" := fun he => ha (by rw [h, he]; decide)
      simp [runToolCall, h, h1, h2, h3]
    · have h1 : tc.action ≠ "list" := fun he => ha (by rw [h, he]; decide)
      have h2 : tc.action ≠ "search" := fun he => ha (by rw [h, he]; decide)
      have h3 : tc.action ≠ "get_transcript" := fun he => ha (by rw [h, he]; decide)
      simp [runToolCall, h, h1, h2, h3]
    · have h1 : tc.action ≠ "list" := fun he => ha (by rw [h, he]; decide)
      have h2 : tc.action ≠ "search" := fun he => ha (by rw [h, he]; decide)
      have h3 : tc.action ≠ "get_readme" := fun he => ha (by rw [h, he]; decide)
      have h4 : tc.action ≠ "get_file" := fun he => ha (by rw [h, he]; decide)
      have h5 : tc.action ≠ "search_and_read" := fun he => ha (by rw [h, he]; decide)
      simp [runToolCall, h, h1, h2, h3, h4, h5]
    · have h1 : tc.action ≠ "send" := fun he => ha (by rw [h, he]; decide)
      simp [runToolCall, h, h1]

/-- C9: when the planner LLM reports need_external_info false, planner_node
stores an empty plan (discarding any tool_calls present) and the graph routes
straight to the synthesizer; conversely the executor is reached only when
need_external_info was true. -/
theorem C9_need_info_gate :
    (∀ (p : AgentPlan) (q : String) (h : List Turn), p.need_external_info = false →
      (planner_node p).plan? = some [] ∧
      (applyUpdate (initialInputs q h) (planner_node p)).plan = [] ∧
      routeAfter Node.planner (applyUpdate (initialInputs q h) (planner_node p)) =
        Node.synthesizer) ∧
    (∀ (p : AgentPlan) (q : String) (h : List Turn),
      routeAfter Node.planner (applyUpdate (initialInputs q h) (planner_node p)) =
        Node.executor →
      p.need_external_info = true) := by
  constructor
  · intro p q h hp
    refine ⟨by simp [planner_node, hp], ?_, ?_⟩
    · simp [applyUpdate, planner_node, hp, initialInputs]
    · simp [routeAfter, should_search, applyUpdate, planner_node, hp, initialInputs]
  · intro p q h hroute
    cases hmode : p.need_external_info with
    | true => rfl
    | false =>
      simp [routeAfter, should_search, applyUpdate, planner_node, hmode, initialInputs] at hroute

/-- Witness for C3 amended: both branches evaluated at concrete calls. -/
theorem C3_amended_witness :
    runToolCall envEx [] tcMediumBogus = ([], []) ∧
    runToolCall envEx [] tcUnknownTool =
      (["--- ERROR: Unknown tool \x27nosuch\x27 ---\n"], []) :=
  ⟨(C3_amended envEx [] tcMediumBogus).2 (by decide) (by decide),
   (C3_amended envEx [] tcUnknownTool).1 (by decide)⟩

/-- Witness for C9: a plan with need_external_info false and a discarded tool
call still yields an empty stored plan and the skip route. -/
theorem C9_need_info_gate_witness :
    (planner_node ⟨false, [tcMediumBogus], some "Hi."⟩).plan? = some [] ∧
    (applyUpdate (initialInputs "Hello" []) (planner_node ⟨false, [tcMediumBogus], some "Hi."⟩)).plan
      = [] ∧
    routeAfter Node.planner
      (applyUpdate (initialInputs "Hello" []) (planner_node ⟨false, [tcMediumBogus], some "Hi."⟩)) =
      Node.synthesizer :=
  C9_need_info_gate.1 ⟨false, [tcMediumBogus], some "Hi."⟩ "Hello" [] rfl

/-- C8: the conditional edge after the planner goes to the executor exactly
when the stored plan is non-empty and to the synthesizer otherwise; it is the
only state-dependent edge; every edge strictly advances the node order, so the
graph is acyclic and a single invocation passes each node at most once
(trace length at most three, duplicate-free) and stops at END when no
exception escapes. -/
theorem C8_graph_single_pass :
    (∀ s : AgentState, routeAfter Node.planner s = Node.executor ↔ s.plan ≠ []) ∧
    (∀ s : AgentState, s.plan = [] → routeAfter Node.planner s = Node.synthesizer) ∧
    (∀ s t : AgentState, routeAfter Node.executor s = routeAfter Node.executor t ∧
      routeAfter Node.synthesizer s = routeAfter Node.synthesizer t ∧
      routeAfter Node.terminal s = routeAfter Node.terminal t) ∧
    (∀ (n : Node) (s : AgentState), n ≠ Node.terminal → nodeIdx n < nodeIdx (routeAfter n s)) ∧
    (∀ (o : Oracles) (s : AgentState),
      ((runAtPlanner o s).trace.map Prod.fst).Nodup ∧
      (runAtPlanner o s).trace.length ≤ 3 ∧
      ((runAtPlanner o s).err = none → (runAtPlanner o s).stopped = Node.terminal)) := by
  refine ⟨?_, ?_, ?_, ?_, ?_⟩
  · intro s
    by_cases h : s.plan = [] <;> simp [routeAfter, should_search, h]
  · intro s h
    simp [routeAfter, should_search, h]
  · intro s t
    exact ⟨rfl, rfl, rfl⟩
  · intro n s hn
    cases n with
    | planner =>
      by_cases h : s.plan = [] <;> simp [routeAfter, should_search, h, nodeIdx]
    | executor => simp [routeAfter, nodeIdx]
    | synthesizer => simp [routeAfter, nodeIdx]
    | terminal => exact absurd rfl hn
  · intro o s
    simp only [runAtPlanner, stepNode]
    by_cases hroute :
        routeAfter Node.planner (applyUpdate s (planner_node o.plannerPlan)) = Node.executor
    · simp only [hroute, if_pos, runAtExecutor, stepNode]
      cases hsy : synthesizer_node o.fastAnswer o.structuredResp
          (applyUpdate (applyUpdate s (planner_node o.plannerPlan))
            { results? := some (executor_node o.env
                (applyUpdate s (planner_node o.plannerPlan)).plan).1 }) with
      | error e => simp [runAtSynthesizer, stepNode, hsy]
      | ok u => simp [runAtSynthesizer, stepNode, hsy, routeAfter]
    · simp only [hroute, if_neg, if_false]
      cases hsy : synthesizer_node o.fastAnswer o.structuredResp
          (applyUpdate s (planner_node o.plannerPlan)) with
      | error e => simp [runAtSynthesizer, stepNode, hsy]
      | ok u => simp [runAtSynthesizer, stepNode, hsy, routeAfter]

/-- Witness for C8: the conjuncts with hypotheses evaluated on the state after
planC2 and on the planner node. -/
theorem C8_graph_single_pass_witness :
    routeAfter Node.planner (applyUpdate (initialInputs "Send it" []) (planner_node planC2)) =
        Node.executor ∧
    nodeIdx Node.planner <
      nodeIdx (routeAfter Node.planner (initialInputs "Hi" [])) :=
  ⟨(C8_graph_single_pass.1 _).mpr (by decide),
   C8_graph_single_pass.2.2.2.1 Node.planner (initialInputs "Hi" []) (by decide)⟩

/-- The executor loop accumulates exactly the per-call block lists, in plan
order. -/
theorem executorLoop_join (env : Env) (plan : List ToolCall) :
    ∀ (acc : List String) (sent : List SentEmail),
      (executorLoop env acc sent plan).1 = acc ++ (blocksPerCall env acc plan).flatten := by
  induction plan with
  | nil => intro acc sent; simp [executorLoop, blocksPerCall]
  | cons tc rest ih =>
    intro acc sent
    simp only [executorLoop, blocksPerCall, List.flatten_cons]
    rw [ih]
    simp [List.append_assoc]

/-- Every tool call of the batch contributes exactly one entry to the per-call
block list, whatever its outcome. -/
theorem blocksPerCall_length (env : Env) (plan : List ToolCall) :
    ∀ acc : List String, (blocksPerCall env acc plan).length = plan.length := by
  induction plan with
  | nil => intro acc; rfl
  | cons tc rest ih => intro acc; simp [blocksPerCall, ih]

/-- A batch where one adapter raises and the preceding brain call returns two
records: two BRAIN blocks then one inline ERROR block. -/
def planC4 : List ToolCall :=
  [⟨"brain", "search", Params.search { shortcuts := ["bio"] }⟩,
   ⟨"github", "search", Params.search { keywords := ["lean"] }⟩]

/-- C4 as stated is false: in the batch planC4 under envEx the github adapter
raises (so the batch contains an error) and every call is still executed, but
the returned result list has three blocks while only two tool calls produced
at least one block, because the brain call appends one block per returned
record. -/
theorem C4_counterexample :
    (executor_node envEx planC4).1 =
      ["--- BRAIN: brain/bio.md ---\nPamudu bio\n",
       "--- BRAIN: brain/skills.md ---\nSkills list\n",
       "--- ERROR: github.search failed: boom ---\n"] ∧
    (executor_node envEx planC4).1.length = 3 ∧
    callsWithOutput envEx planC4 = 2 ∧
    (executor_node envEx planC4).1.length ≠ callsWithOutput envEx planC4 := by
  exact ⟨rfl, rfl, rfl, by decide⟩

/-- C4 amended: the Executor processes every tool call of the batch in plan
order regardless of earlier failures (exceptions are caught and turned into
inline ERROR blocks, as the counterexample evaluates concretely), and the
returned result list is the concatenation of the per-call block lists — its
length is the total number of blocks produced, which can exceed the number of
tool calls that produced at least one block since a brain call appends one
block per returned record. -/
theorem C4_executor_isolation (env : Env) (plan : List ToolCall) :
    (executor_node env plan).1 = (blocksPerCall env [] plan).flatten ∧
    (blocksPerCall env [] plan).length = plan.length ∧
    (executor_node env plan).1.length =
      ((blocksPerCall env [] plan).map List.length).sum := by
  refine ⟨?_, blocksPerCall_length env plan [], ?_⟩
  · simpa using executorLoop_join env plan [] []
  · have h := executorLoop_join env plan [] []
    simp only [executor_node] at *
    rw [h]
    simp [List.length_flatten]

/-- An email.send call with empty content and a valid recipient. -/
def tcEmailNoContent : ToolCall :=
  ⟨"email", "send", Params.email ⟨"bob@x.com", "Hi", "", ""⟩⟩

/-- C5 as stated is false in one corner: with empty content and no previously
accumulated result blocks, the dispatched body is the literal fallback text,
not the (empty) concatenation of the accumulated blocks. -/
theorem C5_counterexample :
    (runToolCall envEx [] tcEmailNoContent).2 =
      [⟨"bob@x.com", "Hi", "No content available.", none⟩] ∧
    "No content available." ≠ String.intercalate "\n" ([] : List String) := by
  exact ⟨rfl, by decide⟩

/-- C5 amended: an email.send call with an empty recipient dispatches nothing
and appends the explicit no-recipient failure block; with a non-empty
recipient and a content that is empty or carries the unfilled-placeholder
marker, the dispatched body is the newline-joined previously accumulated
result blocks when at least one exists, and the literal fallback
"No content available." when none do; a filled content is dispatched
unchanged. -/
theorem C5_email_send (env : Env) (acc : List String) (p : EmailParams) :
    (p.email_to = "" →
      runToolCall env acc ⟨"email", "send", Params.email p⟩ =
        (["--- EMAIL: Failed to send ---\nError: No \x27to_email\x27 specified.\n"], [])) ∧
    (p.email_to ≠ "" → (p.email_content = "" ∨ hasUnfilledMarker p.email_content = true) →
      acc ≠ [] →
      (runToolCall env acc ⟨"email", "send", Params.email p⟩).2 =
        [⟨p.email_to, p.email_subject, String.intercalate "\n" acc, orNone p.email_cc⟩]) ∧
    (p.email_to ≠ "" → (p.email_content = "" ∨ hasUnfilledMarker p.email_content = true) →
      acc = [] →
      (runToolCall env acc ⟨"email", "send", Params.email p⟩).2 =
        [⟨p.email_to, p.email_subject, "No content available.", orNone p.email_cc⟩]) ∧
    (p.email_to ≠ "" → p.email_content ≠ "" → hasUnfilledMarker p.email_content = false →
      (runToolCall env acc ⟨"email", "send", Params.email p⟩).2 =
        [⟨p.email_to, p.email_subject, p.email_content, orNone p.email_cc⟩]) := by
  refine ⟨?_, ?_, ?_, ?_⟩
  · intro h
    simp [runToolCall, Params.getEmailTo, h]
  · intro h hc hacc
    have hne : acc.isEmpty = false := by
      cases acc with
      | nil => exact absurd rfl hacc
      | cons a l => rfl
    simp only [runToolCall]
    simp only [Params.getEmailTo, Params.getEmailSubject, Params.getEmailContent,
      Params.getEmailCc]
    rw [if_pos hc]
    simp only [hne, Bool.not_false, if_true]
    rw [if_neg h]
    cases env.send_email p.email_to p.email_subject (String.intercalate "\n" acc)
        (orNone p.email_cc) <;> simp
  · intro h hc hacc
    subst hacc
    simp only [runToolCall]
    simp only [Params.getEmailTo, Params.getEmailSubject, Params.getEmailContent,
      Params.getEmailCc]
    rw [if_pos hc]
    simp only [List.isEmpty_nil, Bool.not_true, if_false]
    rw [if_neg h]
    cases hse : env.send_email p.email_to p.email_subject "No content available."
        (orNone p.email_cc) <;> simp [hse]
  · intro h hc hm
    have hcond : ¬(p.email_content = "" ∨ hasUnfilledMarker p.email_content = true) := by
      simp [hc, hm]
    simp only [runToolCall, Params.getEmailTo, Params.getEmailSubject, Params.getEmailContent,
      Params.getEmailCc, hcond, if_false, ite_false]
    cases hse : env.send_email p.email_to p.email_subject p.email_content
        (orNone p.email_cc) <;> simp [hse, h]

/-- Witness for C5 amended: the no-recipient branch and the substitution
branch evaluated at concrete calls. -/
theorem C5_email_send_witness :
    runToolCall envEx ["--- BRAIN: x ---"] ⟨"email", "send", Params.email ⟨"", "S", "B", ""⟩⟩ =
      (["--- EMAIL: Failed to send ---\nError: No \x27to_email\x27 specified.\n"], []) ∧
    (runToolCall envEx ["--- BRAIN: x ---"]
        ⟨"email", "send", Params.email ⟨"bob@x.com", "S", "", "cc@x.com"⟩⟩).2 =
      [⟨"bob@x.com", "S", "--- BRAIN: x ---", some "cc@x.com"⟩] :=
  ⟨(C5_email_send envEx ["--- BRAIN: x ---"] ⟨"", "S", "B", ""⟩).1 rfl,
   by
    have := (C5_email_send envEx ["--- BRAIN: x ---"]
      ⟨"bob@x.com", "S", "", "cc@x.com"⟩).2.1 (by decide) (Or.inl rfl) (by decide)
    simpa using this⟩

/-! Helper lemmas for the session-level claims. -/

/-- An empty node update leaves the state unchanged. -/
theorem applyUpdate_id (s : AgentState) : applyUpdate s {} = s := by
  simp [applyUpdate]

/-- Turn counting: committing one user/assistant pair adds one turn. -/
theorem half_turns (n : Nat) : (n + 2) / 2 = n / 2 + 1 := by omega

/-- The synthesizer is a no-op pass-through when the planner already set a
final answer. -/
theorem synth_noop (fast : String) (resp : AgentResponse) (s : AgentState)
    (h : s.final_answer ≠ "") : synthesizer_node fast resp s = Except.ok {} := by
  simp [synthesizer_node, h]

/-- The synthesizer fast path: no final answer yet and no results. -/
theorem synth_fast (fast : String) (resp : AgentResponse) (s : AgentState)
    (h : s.final_answer = "") (hr : s.results = []) :
    synthesizer_node fast resp s =
      Except.ok { final_answer? := some fast, citations? := some []
                  suggested_questions? := some [] } := by
  simp [synthesizer_node, h, hr]

/-- The synthesizer structured path raises (missing pydantic field). -/
theorem synth_structured (fast : String) (resp : AgentResponse) (s : AgentState)
    (h : s.final_answer = "") (hr : s.results ≠ []) :
    synthesizer_node fast resp s =
      Except.error "AttributeError: AgentResponse object has no attribute suggested_questions" := by
  have h2 : s.results.isEmpty = false := by
    cases hx : s.results with
    | nil => exact absurd hx hr
    | cons a l => rfl
  simp [synthesizer_node, h, h2, AgentResponse.getSuggestedQuestions]

/-- resultEvents distributes over append. -/
theorem resultEvents_append (l1 l2 : List GenStep) :
    resultEvents (l1 ++ l2) = resultEvents l1 ++ resultEvents l2 := by
  induction l1 with
  | nil => rfl
  | cons x rest ih =>
    cases x with
    | yieldEv e =>
      cases e with
      | status n m => simp [resultEvents, ih]
      | result r => simp [resultEvents, ih]
    | commitHistory um am => simp [resultEvents, ih]

/-- In an all-yield script every step is counted by numYields. -/
theorem numYields_allYields (l : List GenStep) (h : allYields l = true) :
    numYields l = l.length := by
  induction l with
  | nil => rfl
  | cons x rest ih =>
    cases x with
    | yieldEv e => simp [numYields, ih (by simpa [allYields] using h)]
    | commitHistory um am => simp [allYields] at h

/-- numYields over an append. -/
theorem numYields_append (l1 l2 : List GenStep) :
    numYields (l1 ++ l2) = numYields l1 + numYields l2 := by
  induction l1 with
  | nil => simp [numYields]
  | cons x rest ih =>
    cases x with
    | yieldEv e => simp [numYields, ih]; omega
    | commitHistory um am => simp [numYields, ih]

/-- Yield steps do not touch the history. -/
theorem applySteps_allYields (h0 : List Turn) (l : List GenStep) (h : allYields l = true) :
    applySteps h0 l = h0 := by
  induction l with
  | nil => rfl
  | cons x rest ih =>
    cases x with
    | yieldEv e => simpa [applySteps] using ih (by simpa [allYields] using h)
    | commitHistory um am => simp [allYields] at h

/-- applySteps over an append. -/
theorem applySteps_append (h0 : List Turn) (l1 l2 : List GenStep) :
    applySteps h0 (l1 ++ l2) = applySteps (applySteps h0 l1) l2 := by
  induction l1 generalizing h0 with
  | nil => rfl
  | cons x rest ih =>
    cases x with
    | yieldEv e => simp [applySteps, ih]
    | commitHistory um am => simp [applySteps, ih]

/-- A prefix of an all-yield script is all yields. -/
theorem allYields_take (l : List GenStep) (n : Nat) (h : allYields l = true) :
    allYields (l.take n) = true := by
  induction l generalizing n with
  | nil => simp [allYields]
  | cons x rest ih =>
    cases x with
    | yieldEv e =>
      cases n with
      | zero => rfl
      | succ m => simpa [allYields] using ih m (by simpa [allYields] using h)
    | commitHistory um am => simp [allYields] at h

/-- Consuming n requests from an all-yield script executes its first n
steps. -/
theorem executedAfter_allYields (l : List GenStep) (n : Nat) (h : allYields l = true) :
    executedAfter l n = l.take n := by
  induction l generalizing n with
  | nil => cases n <;> rfl
  | cons x rest ih =>
    cases x with
    | yieldEv e =>
      cases n with
      | zero => rfl
      | succ m => simp [executedAfter, ih m (by simpa [allYields] using h)]
    | commitHistory um am => simp [allYields] at h

/-- Consumption through an all-yield prefix: the tail (holding the commit)
executes only once the requests outnumber the yields. -/
theorem executedAfter_yields_append (ys tail : List GenStep) (n : Nat)
    (h : allYields ys = true) :
    executedAfter (ys ++ tail) n =
      if n ≤ ys.length then ys.take n else ys ++ executedAfter tail (n - ys.length) := by
  induction ys generalizing n with
  | nil =>
    cases n with
    | zero => simp [executedAfter]
    | succ m => simp [executedAfter]
  | cons x rest ih =>
    cases x with
    | yieldEv e =>
      cases n with
      | zero => simp [executedAfter]
      | succ m =>
        have hr : allYields rest = true := by simpa [allYields] using h
        have hstep : executedAfter ((GenStep.yieldEv e :: rest) ++ tail) (m + 1) =
            GenStep.yieldEv e :: executedAfter (rest ++ tail) m := rfl
        rw [hstep, ih m hr]
        by_cases hm : m ≤ rest.length
        · rw [if_pos hm, if_pos (by simp only [List.length_cons]; omega)]
          simp [List.take_succ_cons]
        · rw [if_neg hm, if_neg (by simp only [List.length_cons]; omega)]
          simp [Nat.succ_sub_succ]
    | commitHistory um am => simp [allYields] at h

/-- Shape of a streamed turn whose plan is empty (skip route): the turn always
completes; the stream is the start status, the thinking status and one result
event, followed by the history commit of the user message and the answer. -/
theorem shape_skip (pp : AgentPlan) (env : Env) (fast : String) (sresp : AgentResponse)
    (history : List Turn) (q : String)
    (hplan : (if pp.need_external_info then pp.tool_calls else []) = []) :
    ∃ r, chat ⟨pp, env, fast, sresp⟩ history q =
        Except.ok (r, history ++ [⟨Role.user, q⟩, ⟨Role.assistant, r.answer⟩]) ∧
      (chat_stream ⟨pp, env, fast, sresp⟩ history q).2 = none ∧
      ∃ ys, (chat_stream ⟨pp, env, fast, sresp⟩ history q).1 =
          ys ++ [GenStep.commitHistory q r.answer] ∧
        allYields ys = true ∧ resultEvents ys = [r] := by
  have hAid : ∀ a : String, (if a ≠ "" then a else "") = a := by
    intro a; by_cases h : a = "" <;> simp [h]
  have hs1 : applyUpdate (initialInputs q history) (planner_node pp) =
      ⟨q, history, [], [], pp.response.getD "", [], []⟩ := by
    simp [applyUpdate, planner_node, initialInputs, hplan]
  have hroute : routeAfter Node.planner
      (⟨q, history, [], [], pp.response.getD "", [], []⟩ : AgentState) = Node.synthesizer := by
    simp [routeAfter, should_search]
  by_cases hfa : pp.response.getD "" = ""
  · have hsy := synth_fast fast sresp
      (⟨q, history, [], [], pp.response.getD "", [], []⟩ : AgentState) hfa rfl
    have hs2 : applyUpdate (⟨q, history, [], [], pp.response.getD "", [], []⟩ : AgentState)
        { final_answer? := some fast, citations? := some []
          suggested_questions? := some [] } =
        ⟨q, history, [], [], fast, [], []⟩ := by
      simp [applyUpdate]
    have hrun : runAtPlanner ⟨pp, env, fast, sresp⟩ (initialInputs q history) =
        ⟨[("planner", planner_node pp),
          ("synthesizer", { final_answer? := some fast, citations? := some []
                            suggested_questions? := some [] })],
         ⟨q, history, [], [], fast, [], []⟩, Node.terminal, none⟩ := by
      simp only [runAtPlanner, stepNode, hs1, hroute]
      rw [if_neg (by simp)]
      simp only [runAtSynthesizer, stepNode, hsy, hs2, routeAfter]
    refine ⟨⟨fast, [], [], history.length / 2 + 1⟩, ?_, ?_, ?_⟩
    · simp [chat, app_invoke, hrun, half_turns]
    · simp only [chat_stream, hrun]
    · refine ⟨[GenStep.yieldEv (Event.status "start" "🧠 Analyzing request..."),
               GenStep.yieldEv (Event.status "planner" "📝 Thinking..."),
               GenStep.yieldEv (Event.result ⟨fast, [], [], history.length / 2 + 1⟩)],
              ?_, by simp [allYields], by simp [resultEvents]⟩
      simp only [chat_stream, hrun]
      simp [streamLoop, planner_node, hplan, hfa, hAid]
  · have hsy := synth_noop fast sresp
      (⟨q, history, [], [], pp.response.getD "", [], []⟩ : AgentState) hfa
    have hrun : runAtPlanner ⟨pp, env, fast, sresp⟩ (initialInputs q history) =
        ⟨[("planner", planner_node pp), ("synthesizer", {})],
         ⟨q, history, [], [], pp.response.getD "", [], []⟩, Node.terminal, none⟩ := by
      simp only [runAtPlanner, stepNode, hs1, hroute]
      rw [if_neg (by simp)]
      simp only [runAtSynthesizer, stepNode, hsy, applyUpdate_id, routeAfter]
    refine ⟨⟨pp.response.getD "", [], [], history.length / 2 + 1⟩, ?_, ?_, ?_⟩
    · simp [chat, app_invoke, hrun, half_turns]
    · simp only [chat_stream, hrun]
    · refine ⟨[GenStep.yieldEv (Event.status "start" "🧠 Analyzing request..."),
               GenStep.yieldEv (Event.status "planner" "📝 Thinking..."),
               GenStep.yieldEv (Event.result
                 ⟨pp.response.getD "", [], [], history.length / 2 + 1⟩)],
              ?_, by simp [allYields], by simp [resultEvents]⟩
      simp only [chat_stream, hrun]
      simp [streamLoop, planner_node, hplan, hfa, hAid]

/-- Shape of a streamed turn whose plan is non-empty (executor route): either
the synthesizer raises after the executor (all steps yields, no result event,
no commit) or the turn completes with the stream ending in one result event
and the commit. -/
theorem shape_exec (calls : List ToolCall) (rsp : Option String) (env : Env)
    (fast : String) (sresp : AgentResponse) (history : List Turn) (q : String)
    (hcalls : calls ≠ []) :
    (∃ e, (chat_stream ⟨⟨true, calls, rsp⟩, env, fast, sresp⟩ history q).2 = some e ∧
      allYields (chat_stream ⟨⟨true, calls, rsp⟩, env, fast, sresp⟩ history q).1 = true ∧
      resultEvents (chat_stream ⟨⟨true, calls, rsp⟩, env, fast, sresp⟩ history q).1 = [] ∧
      chat ⟨⟨true, calls, rsp⟩, env, fast, sresp⟩ history q = Except.error e) ∨
    (∃ r, chat ⟨⟨true, calls, rsp⟩, env, fast, sresp⟩ history q =
        Except.ok (r, history ++ [⟨Role.user, q⟩, ⟨Role.assistant, r.answer⟩]) ∧
      (chat_stream ⟨⟨true, calls, rsp⟩, env, fast, sresp⟩ history q).2 = none ∧
      ∃ ys, (chat_stream ⟨⟨true, calls, rsp⟩, env, fast, sresp⟩ history q).1 =
          ys ++ [GenStep.commitHistory q r.answer] ∧
        allYields ys = true ∧ resultEvents ys = [r]) := by
  have hAid : ∀ a : String, (if a ≠ "" then a else "") = a := by
    intro a; by_cases h : a = "" <;> simp [h]
  have hs1 : applyUpdate (initialInputs q history) (planner_node ⟨true, calls, rsp⟩) =
      ⟨q, history, calls, [], rsp.getD "", [], []⟩ := by
    simp [applyUpdate, planner_node, initialInputs]
  have hroute : routeAfter Node.planner
      (⟨q, history, calls, [], rsp.getD "", [], []⟩ : AgentState) = Node.executor := by
    simp [routeAfter, should_search, hcalls]
  by_cases hfa : rsp.getD "" = ""
  · by_cases hB : (executor_node env calls).1 = []
    · have hsy := synth_fast fast sresp
        (⟨q, history, calls, (executor_node env calls).1, rsp.getD "", [], []⟩ : AgentState)
        hfa hB
      have hs2 : applyUpdate (⟨q, history, calls, [], rsp.getD "", [], []⟩ : AgentState)
          { results? := some (executor_node env calls).1 } =
          ⟨q, history, calls, (executor_node env calls).1, rsp.getD "", [], []⟩ := by
        simp [applyUpdate]
      have hs3 : applyUpdate
          (⟨q, history, calls, (executor_node env calls).1, rsp.getD "", [], []⟩ : AgentState)
          { final_answer? := some fast, citations? := some []
            suggested_questions? := some [] } =
          ⟨q, history, calls, (executor_node env calls).1, fast, [], []⟩ := by
        simp [applyUpdate]
      have hrun : runAtPlanner ⟨⟨true, calls, rsp⟩, env, fast, sresp⟩
          (initialInputs q history) =
          ⟨[("planner", planner_node ⟨true, calls, rsp⟩),
            ("executor", { results? := some (executor_node env calls).1 }),
            ("synthesizer", { final_answer? := some fast, citations? := some []
                              suggested_questions? := some [] })],
           ⟨q, history, calls, (executor_node env calls).1, fast, [], []⟩,
           Node.terminal, none⟩ := by
        simp only [runAtPlanner, stepNode, hs1, hroute]
        simp only [if_true]
        simp only [runAtExecutor, stepNode, hs2, runAtSynthesizer, hsy, hs3, routeAfter]
      refine Or.inr ⟨⟨fast, [], [], history.length / 2 + 1⟩, ?_, ?_, ?_⟩
      · simp [chat, app_invoke, hrun, half_turns]
      · simp only [chat_stream, hrun]
      · refine ⟨[GenStep.yieldEv (Event.status "start" "🧠 Analyzing request..."),
                 GenStep.yieldEv (Event.status "planner" (usingToolsMessage calls)),
                 GenStep.yieldEv (Event.status "executor"
                   ("📊 Analyzed " ++ toString (executor_node env calls).1.length ++
                    " search results.")),
                 GenStep.yieldEv (Event.status "synthesizer" "✍️ Drafting response..."),
                 GenStep.yieldEv (Event.result ⟨fast, [], [], history.length / 2 + 1⟩)],
                ?_, by simp [allYields], by simp [resultEvents]⟩
        simp only [chat_stream, hrun]
        simp [streamLoop, planner_node, hcalls, hfa, hAid]
    · have hsy := synth_structured fast sresp
        (⟨q, history, calls, (executor_node env calls).1, rsp.getD "", [], []⟩ : AgentState)
        hfa hB
      have hs2 : applyUpdate (⟨q, history, calls, [], rsp.getD "", [], []⟩ : AgentState)
          { results? := some (executor_node env calls).1 } =
          ⟨q, history, calls, (executor_node env calls).1, rsp.getD "", [], []⟩ := by
        simp [applyUpdate]
      have hrun : runAtPlanner ⟨⟨true, calls, rsp⟩, env, fast, sresp⟩
          (initialInputs q history) =
          ⟨[("planner", planner_node ⟨true, calls, rsp⟩),
            ("executor", { results? := some (executor_node env calls).1 })],
           ⟨q, history, calls, (executor_node env calls).1, rsp.getD "", [], []⟩,
           Node.synthesizer,
           some "AttributeError: AgentResponse object has no attribute suggested_questions"⟩ := by
        simp only [runAtPlanner, stepNode, hs1, hroute]
        simp only [if_true]
        simp only [runAtExecutor, stepNode, hs2, runAtSynthesizer, hsy]
      refine Or.inl
        ⟨"AttributeError: AgentResponse object has no attribute suggested_questions",
         ?_, ?_, ?_, ?_⟩
      · simp only [chat_stream, hrun]
      · simp only [chat_stream, hrun]
        simp [streamLoop, planner_node, hcalls, hfa, hAid, allYields]
      · simp only [chat_stream, hrun]
        simp [streamLoop, planner_node, hcalls, hfa, hAid, resultEvents]
      · simp [chat, app_invoke, hrun]
  · have hsy := synth_noop fast sresp
      (⟨q, history, calls, (executor_node env calls).1, rsp.getD "", [], []⟩ : AgentState) hfa
    have hs2 : applyUpdate (⟨q, history, calls, [], rsp.getD "", [], []⟩ : AgentState)
        { results? := some (executor_node env calls).1 } =
        ⟨q, history, calls, (executor_node env calls).1, rsp.getD "", [], []⟩ := by
      simp [applyUpdate]
    have hrun : runAtPlanner ⟨⟨true, calls, rsp⟩, env, fast, sresp⟩
        (initialInputs q history) =
        ⟨[("planner", planner_node ⟨true, calls, rsp⟩),
          ("executor", { results? := some (executor_node env calls).1 }),
          ("synthesizer", {})],
         ⟨q, history, calls, (executor_node env calls).1, rsp.getD "", [], []⟩,
         Node.terminal, none⟩ := by
      simp only [runAtPlanner, stepNode, hs1, hroute]
      simp only [if_true]
      simp only [runAtExecutor, stepNode, hs2, runAtSynthesizer, hsy, applyUpdate_id, routeAfter]
    refine Or.inr ⟨⟨rsp.getD "", [], [], history.length / 2 + 1⟩, ?_, ?_, ?_⟩
    · simp [chat, app_invoke, hrun, half_turns]
    · simp only [chat_stream, hrun]
    · refine ⟨[GenStep.yieldEv (Event.status "start" "🧠 Analyzing request..."),
               GenStep.yieldEv (Event.status "planner" (usingToolsMessage calls)),
               GenStep.yieldEv (Event.status "executor"
                 ("📊 Analyzed " ++ toString (executor_node env calls).1.length ++
                  " search results.")),
               GenStep.yieldEv (Event.status "synthesizer" "✍️ Drafting response..."),
               GenStep.yieldEv (Event.result
                 ⟨rsp.getD "", [], [], history.length / 2 + 1⟩)],
              ?_, by simp [allYields], by simp [resultEvents]⟩
      simp only [chat_stream, hrun]
      simp [streamLoop, planner_node, hcalls, hfa, hAid]

/-- Shape of every streamed turn: either the graph raised (all steps are
yields, no result event, chat raises the same exception and nothing is
committed), or chat succeeds with result r and the stream is a list of yields
containing exactly one result event, carrying r, followed by the single
history commit of the user message and r.answer. -/
theorem chatStream_shape (o : Oracles) (history : List Turn) (q : String) :
    (∃ e, (chat_stream o history q).2 = some e ∧
      allYields (chat_stream o history q).1 = true ∧
      resultEvents (chat_stream o history q).1 = [] ∧
      chat o history q = Except.error e) ∨
    (∃ r, chat o history q =
        Except.ok (r, history ++ [⟨Role.user, q⟩, ⟨Role.assistant, r.answer⟩]) ∧
      (chat_stream o history q).2 = none ∧
      ∃ ys, (chat_stream o history q).1 = ys ++ [GenStep.commitHistory q r.answer] ∧
        allYields ys = true ∧ resultEvents ys = [r]) := by
  obtain ⟨⟨need, calls, rsp⟩, env, fast, sresp⟩ := o
  cases need with
  | false => exact Or.inr (shape_skip ⟨false, calls, rsp⟩ env fast sresp history q rfl)
  | true =>
    by_cases hcalls : calls = []
    · subst hcalls
      exact Or.inr (shape_skip ⟨true, [], rsp⟩ env fast sresp history q rfl)
    · exact shape_exec calls rsp env fast sresp history q hcalls

/-- C6: whenever chat completes with a result, the stream of chat_stream over
the same oracles yields exactly one terminal result event and it carries the
same answer, citations, suggested_questions and turn count — streaming is a
projection that does not change the computed result (including when the graph
produces an empty final_answer, since nothing below restricts it). -/
theorem C6_stream_projects_chat (o : Oracles) (history : List Turn) (q : String)
    (r : ChatResult) (newH : List Turn)
    (hc : chat o history q = Except.ok (r, newH)) :
    resultEvents (chat_stream o history q).1 = [r] := by
  rcases chatStream_shape o history q with ⟨e, -, -, -, herr⟩ | ⟨r1, hok, -, ys, hsteps, -, hres⟩
  · rw [herr] at hc
    cases hc
  · rw [hok] at hc
    simp only [Except.ok.injEq, Prod.mk.injEq] at hc
    obtain ⟨hr, -⟩ := hc
    subst hr
    rw [hsteps, resultEvents_append]
    simpa [resultEvents] using hres

/-- Concrete oracles: the planner answers directly with a greeting. -/
def oEx : Oracles :=
  { plannerPlan := ⟨false, [], some "Hello."⟩
    env := envEx
    fastAnswer := "Fast answer."
    structuredResp := ⟨"Structured answer.", []⟩ }

/-- Witness for C6: the streamed result event of a concrete greeting turn
equals the chat return value. -/
theorem C6_stream_projects_chat_witness :
    resultEvents (chat_stream oEx [] "Hi").1 = [⟨"Hello.", [], [], 1⟩] :=
  C6_stream_projects_chat oEx [] "Hi" ⟨"Hello.", [], [], 1⟩
    [⟨Role.user, "Hi"⟩, ⟨Role.assistant, "Hello."⟩] (by rfl)

/-- C7: the history commit of chat_stream (one user turn plus one assistant
turn) happens only once the consumer has driven the generator past every
yield, hence after the terminal result event was yielded; a stream abandoned
at or before the last yield, and a stream aborted by an exception, leave the
session history unchanged. -/
theorem C7_history_commit (o : Oracles) (history : List Turn) (q : String) :
    (∀ n, n ≤ numYields (chat_stream o history q).1 →
      historyAfterRequests o history q n = history) ∧
    (∀ n, historyAfterRequests o history q n ≠ history →
      numYields (chat_stream o history q).1 < n ∧
      resultEvents (chat_stream o history q).1 ≠ [] ∧
      ∃ a, historyAfterRequests o history q n =
        history ++ [⟨Role.user, q⟩, ⟨Role.assistant, a⟩]) ∧
    ((chat_stream o history q).2 ≠ none →
      ∀ n, historyAfterRequests o history q n = history) := by
  rcases chatStream_shape o history q with ⟨e, -, hay, -, -⟩ |
    ⟨r, -, hnone, ys, hsteps, hay, hres⟩
  · have hall : ∀ n, historyAfterRequests o history q n = history := by
      intro n
      unfold historyAfterRequests
      rw [executedAfter_allYields _ _ hay]
      exact applySteps_allYields _ _ (allYields_take _ _ hay)
    exact ⟨fun n _ => hall n, fun n hn => absurd (hall n) hn, fun _ n => hall n⟩
  · have hyl : numYields (chat_stream o history q).1 = ys.length := by
      rw [hsteps, numYields_append]
      simp [numYields, numYields_allYields ys hay]
    have hafter : ∀ n, historyAfterRequests o history q n =
        if n ≤ ys.length then history
        else history ++ [⟨Role.user, q⟩, ⟨Role.assistant, r.answer⟩] := by
      intro n
      unfold historyAfterRequests
      rw [hsteps, executedAfter_yields_append ys _ n hay]
      by_cases hn : n ≤ ys.length
      · rw [if_pos hn, if_pos hn]
        exact applySteps_allYields _ _ (allYields_take _ _ hay)
      · rw [if_neg hn, if_neg hn]
        have hea : executedAfter [GenStep.commitHistory q r.answer] (n - ys.length) =
            [GenStep.commitHistory q r.answer] := by
          obtain ⟨m, hm⟩ : ∃ m, n - ys.length = m + 1 := ⟨n - ys.length - 1, by omega⟩
          rw [hm]
          rfl
        rw [hea, applySteps_append, applySteps_allYields _ _ hay]
        rfl
    refine ⟨?_, ?_, ?_⟩
    · intro n hn
      rw [hafter n, if_pos (by rw [hyl] at hn; exact hn)]
    · intro n hchanged
      rw [hafter n] at hchanged
      by_cases hn : n ≤ ys.length
      · rw [if_pos hn] at hchanged
        exact absurd rfl hchanged
      · rw [if_neg hn] at hchanged
        refine ⟨by rw [hyl]; omega, ?_, ⟨r.answer, by rw [hafter n, if_neg hn]⟩⟩
        rw [hsteps, resultEvents_append]
        simp [resultEvents, hres]
    · intro hsome _
      exact absurd hnone hsome

/-- Witness for C7: after three requests (all three yields of the concrete
greeting stream, result event included) the history is still untouched. -/
theorem C7_history_commit_witness :
    historyAfterRequests oEx [] "Hi" 3 = [] :=
  (C7_history_commit oEx [] "Hi").1 3 (by decide)

end VirtualPamudu
